import Mathlib

/-!
Shallow embedding of `src/afval.py`: a waste-collection schedule service with
two provider adapters (Afvalstoffen, Cleanprofs), a redis-backed cache with a
negative-result sentinel, an orchestrator (`fetch_data_for`), and an ICS
calendar builder (`create_calander`).

Modelling conventions:
* Python `datetime.date` is `PyDate` (year/month/day as `Nat`); the
  constructor's validity check (raising `ValueError`) is `mkDate : ... → Option PyDate`.
* Functions that can raise an uncaught Python exception return `PyResult`.
* Redis values are byte lists; Python 3 `==` between `bytes` and `str` is
  embedded by `pyEq` on a dynamic-value type (it is always `False`).
* `pickle` is modelled by an executable codec whose output carries the real
  protocol framing byte `0x80` first, which is all the code observes.
* Regular expressions from the source are compiled by hand into deterministic
  character-list scanners (the patterns involved have no observable
  backtracking, as argued in the comments at each scanner).
-/

namespace Afval

/-- `class Provider(str, Enum)` from the source. -/
inductive Provider where
  | cleanprofs
  | afvalstoffen
deriving DecidableEq

/-- The `.value` string of each `Provider` member. -/
def Provider.value : Provider → String
  | .cleanprofs => "cleanprofs"
  | .afvalstoffen => "afvalstoffen"

/-- `class WasteType(str, Enum)` from the source. -/
inductive WasteType where
  | non_recyclable
  | organic
  | paper
  | plastic
  | tree
deriving DecidableEq

/-- The `.value` string of each `WasteType` member. -/
def WasteType.value : WasteType → String
  | .non_recyclable => "non_recyclable"
  | .organic => "organic"
  | .paper => "paper"
  | .plastic => "plastic"
  | .tree => "tree"

/-- `NOT_FOUND = "__not_found__"`: the negative-cache sentinel string. -/
def NOT_FOUND : String := "__not_found__"

/-- `REDIS_POSITIVE_CACHE_EXPIRE = 3600`. -/
def REDIS_POSITIVE_CACHE_EXPIRE : Nat := 3600

/-- `REDIS_NEGATIVE_CACHE_EXPIRE = 300`. -/
def REDIS_NEGATIVE_CACHE_EXPIRE : Nat := 300

/-- `WASTE_TYPE_LABELS`: display labels. The source dict has entries for
`non_recyclable`, `organic`, `paper` and `tree` only, so looking up
`plastic` raises `KeyError`; we model the lookup as an `Option`.
(The source indexes the dict with `waste_type.value`; since `WasteType` is a
`str`-mixin enum whose names equal its values, that lookup is equivalent to
indexing by the member itself.) -/
def WASTE_TYPE_LABELS : WasteType → Option String
  | .non_recyclable => some "Non Recyclable"
  | .organic => some "Organic"
  | .paper => some "Paper"
  | .tree => some "Tree"
  | .plastic => none

/-- `CLEANPROFS_WASTE_TYPES` dict as a lookup function. -/
def CLEANPROFS_WASTE_TYPES : String → Option WasteType
  | "rst" => some .non_recyclable
  | "gft" => some .organic
  | _ => none

/-- `AFVALSTOFFEN_WASTE_TYPES` dict as a lookup function. -/
def AFVALSTOFFEN_WASTE_TYPES : String → Option WasteType
  | "restafval" => some .non_recyclable
  | "gft" => some .organic
  | "papier" => some .paper
  | "kerstbomen" => some .tree
  | _ => none

/-- `MONTHS`: full Dutch month names, in order. -/
def MONTHS : List String :=
  ["januari", "februari", "maart", "april", "mei", "juni",
   "juli", "augustus", "september", "oktober", "november", "december"]

/-- `MONTHS_ABBREVIATED`: three-letter month abbreviations, in order. -/
def MONTHS_ABBREVIATED : List String :=
  ["jan", "feb", "mar", "apr", "may", "jun",
   "jul", "aug", "sep", "oct", "nov", "dec"]

/-- Python `datetime.date`: a year/month/day triple (validity is enforced by
the constructor, modelled separately by `mkDate`). -/
structure PyDate where
  year : Nat
  month : Nat
  day : Nat
deriving DecidableEq

/-- Gregorian leap-year rule, as used by `datetime.date`. -/
def isLeap (y : Nat) : Bool :=
  y % 4 == 0 && (y % 100 != 0 || y % 400 == 0)

/-- Days in a month of a given year, as used by `datetime.date`. -/
def daysInMonth (y m : Nat) : Nat :=
  if m == 2 then (if isLeap y then 29 else 28)
  else if m == 4 || m == 6 || m == 9 || m == 11 then 30
  else 31

/-- `datetime.date`'s constructor argument check (`MINYEAR = 1`,
`MAXYEAR = 9999`). -/
def isValidDate (y m d : Nat) : Bool :=
  1 ≤ y && y ≤ 9999 && 1 ≤ m && m ≤ 12 && 1 ≤ d && d ≤ daysInMonth y m

/-- `datetime.date(y, m, d)`: `none` models the `ValueError` raised on an
out-of-range component. -/
def mkDate (y m d : Nat) : Option PyDate :=
  if isValidDate y m d then some ⟨y, m, d⟩ else none

/-- `today.replace(month=m, day=d)`: keeps the year, validates the result. -/
def pyReplace (today : PyDate) (m d : Nat) : Option PyDate :=
  mkDate today.year m d

/-- Outcome of a Python call that may raise an uncaught exception. -/
inductive PyResult (α : Type) where
  | error
  | ok (val : α)
deriving DecidableEq

/-- A pickup item as built by the adapters: `(datetime.date, WasteType)`. -/
abbrev Item := PyDate × WasteType

/-- Sort key of an item under Python tuple comparison: the date fields
(fixed width) followed by the waste type's `.value` code points (a
`str`-mixin enum compares as its value string). -/
def itemKey (it : Item) : List Nat :=
  [it.1.year, it.1.month, it.1.day] ++ it.2.value.data.map Char.toNat

/-- Lexicographic `≤` on `List Nat` (with the prefix rule), matching Python's
sequence/string comparison. -/
def keyLe : List Nat → List Nat → Bool
  | [], _ => true
  | _ :: _, [] => false
  | a :: as, b :: bs => if a < b then true else if b < a then false else keyLe as bs

/-- The order Python's `sorted` uses on `(date, waste_type)` tuples. -/
def itemLe (a b : Item) : Bool :=
  keyLe (itemKey a) (itemKey b)

/-- Python `sorted` on a list of items. Python's sort is a stable sort by
`≤`; any stable sort gives the same list, and we use a structurally
recursive one (Mathlib's stable `insertionSort`) so that the kernel can
evaluate it. -/
def pySorted (l : List Item) : List Item :=
  l.insertionSort (fun a b => itemLe a b = true)

/-- Python `int` applied to a string of decimal digits. -/
def digitsToNat (s : String) : Nat :=
  s.data.foldl (fun a c => a * 10 + (c.toNat - 48)) 0

/-- The whitespace class of the `\s` regex atom (ASCII part). -/
def pyIsSpace (c : Char) : Bool :=
  c == ' ' || c == '\t' || c == '\n' || c == '\r' || c == '\x0b' || c == '\x0c'

/-- Python `str.lower()` (ASCII range; the month names and category markers
this program lowercases are ASCII). -/
def pyLower (s : String) : String :=
  String.mk (s.data.map (fun c => if 'A' ≤ c && c ≤ 'Z' then Char.ofNat (c.toNat + 32) else c))

/-- Python `str.strip()` (ASCII whitespace). -/
def pyStrip (s : String) : String :=
  String.mk (((s.data.dropWhile pyIsSpace).reverse.dropWhile pyIsSpace).reverse)

/-- Python `body.split("\n")`: split at every separator occurrence, keeping
empty pieces. -/
def pySplitNlAux : List Char → List Char → List String
  | [], acc => [String.mk acc.reverse]
  | c :: cs, acc =>
    if c == '\n' then String.mk acc.reverse :: pySplitNlAux cs []
    else pySplitNlAux cs (c :: acc)

/-- Python `body.split("\n")`. -/
def pySplitNl (s : String) : List String :=
  pySplitNlAux s.data []

/-- Match a literal character sequence at the head of the input, returning the
rest. -/
def dropLit : List Char → List Char → Option (List Char)
  | [], cs => some cs
  | _ :: _, [] => none
  | l :: ls, c :: cs => if c == l then dropLit ls cs else none

/-- The scanner for `re.match(r'^\s*<p class="([^"]+)">[^\s]+\s+(\d+) ([^<]+)', line)`
in `afvalstoffen_get_dates`, returning the three captured groups
(category marker, day digits, month text).

The pattern is deterministic: each `X+` atom is followed by a character its
class excludes (or by a literal that any shorter greedy match would place a
still-excluded character under), so greedy matching without backtracking is
equivalent to the regex. -/
def afvalstoffenLineMatch (line : String) : Option (String × String × String) := do
  let cs := line.data.dropWhile pyIsSpace
  let r1 ← dropLit ("<p class=\"".data) cs
  let cls := r1.takeWhile (fun c => c != '"')
  let r2 ← dropLit ("\">".data) (r1.dropWhile (fun c => c != '"'))
  let ns := r2.takeWhile (fun c => !pyIsSpace c)
  let r3 := r2.dropWhile (fun c => !pyIsSpace c)
  let sp := r3.takeWhile pyIsSpace
  let r4 := r3.dropWhile pyIsSpace
  let ds := r4.takeWhile Char.isDigit
  let r5 ← dropLit [' '] (r4.dropWhile Char.isDigit)
  let mon := r5.takeWhile (fun c => c != '<')
  if cls.isEmpty || ns.isEmpty || sp.isEmpty || ds.isEmpty || mon.isEmpty then none
  else some (String.mk cls, String.mk ds, String.mk mon)

/-- The line loop of `afvalstoffen_get_dates`, in document order.
`PyResult.error` models the uncaught `ValueError` from `MONTHS.index` on an
unknown month, the `ValueError` from `datetime.date` on an invalid date, and
the `KeyError` from `AFVALSTOFFEN_WASTE_TYPES[type_]` on an unknown marker. -/
def afvalstoffen_scan (year : Nat) : List String → PyResult (List Item)
  | [] => .ok []
  | line :: rest =>
    match afvalstoffenLineMatch line with
    | none => afvalstoffen_scan year rest
    | some (marker, dayStr, monStr) =>
      match MONTHS.findIdx? (fun s => s == pyLower monStr) with
      | none => .error
      | some i =>
        match mkDate year (i + 1) (digitsToNat dayStr) with
        | none => .error
        | some d =>
          match AFVALSTOFFEN_WASTE_TYPES marker with
          | none => .error
          | some w =>
            match afvalstoffen_scan year rest with
            | .error => .error
            | .ok l => .ok ((d, w) :: l)

/-- `afvalstoffen_get_dates`, after the (external) HTTP handshake delivered
`body`: split into lines, scan each line, return `sorted(dates)`.
`year` is `datetime.date.today().year`. -/
def afvalstoffen_get_dates (year : Nat) (body : String) : PyResult (List Item) :=
  match afvalstoffen_scan year (pySplitNl body) with
  | .error => .error
  | .ok items => .ok (pySorted items)

/-- The scanner for `re.match(r"^(\d+) ([a-z]{3})$", text)` in
`cleanprofs_extract_item`: digits, one space, exactly three lowercase ASCII
letters, end of string. -/
def cleanprofsDateMatch (s : String) : Option (String × String) :=
  let cs := s.data
  let ds := cs.takeWhile Char.isDigit
  if ds.isEmpty then none
  else
    match cs.dropWhile Char.isDigit with
    | ' ' :: m1 :: m2 :: m3 :: [] =>
      if [m1, m2, m3].all (fun c => 'a' ≤ c && c ≤ 'z') then
        some (String.mk ds, String.mk [m1, m2, m3])
      else none
    | _ => none

/-- The date-searching loop of `cleanprofs_extract_item`: the first text
matching the pattern determines the date via `MONTHS_ABBREVIATED.index`
(uncaught `ValueError` when the abbreviation is unknown, modelled `.error`)
and `today.replace` (uncaught `ValueError` on invalid date). -/
def cleanprofs_find_date (today : PyDate) (w : WasteType) :
    List String → PyResult (Option Item)
  | [] => .ok none
  | text :: rest =>
    match cleanprofsDateMatch text with
    | none => cleanprofs_find_date today w rest
    | some (dayStr, mon) =>
      match MONTHS_ABBREVIATED.findIdx? (fun s => s == mon) with
      | none => .error
      | some i =>
        match pyReplace today (i + 1) (digitsToNat dayStr) with
        | none => .error
        | some d => .ok (some (d, w))

/-- `cleanprofs_extract_item`, applied to the stripped/lowered texts of the
item's `span.tb-lead` sub-elements (the HTML fan-out is performed by the
external BeautifulSoup library; the function's own processing starts from the
texts). The waste type is the first text present in `CLEANPROFS_WASTE_TYPES`
(the `[...][0]` comprehension); if none is, the `IndexError` branch returns
`None, None`, modelled as `.ok none`. -/
def cleanprofs_extract_item (today : PyDate) (texts0 : List String) :
    PyResult (Option Item) :=
  let texts := texts0.map (fun t => pyLower (pyStrip t))
  match texts.findSome? CLEANPROFS_WASTE_TYPES with
  | none => .ok none
  | some w => cleanprofs_find_date today w texts

/-- The item loop of `cleanprofs_download_items`: extract each element,
skip those without a waste type (`if not waste_type: continue`), propagate an
uncaught exception from extraction. -/
def cleanprofs_collect (today : PyDate) : List (List String) → PyResult (List Item)
  | [] => .ok []
  | el :: rest =>
    match cleanprofs_extract_item today el with
    | .error => .error
    | .ok none => cleanprofs_collect today rest
    | .ok (some p) =>
      match cleanprofs_collect today rest with
      | .error => .error
      | .ok l => .ok (p :: l)

/-- `cleanprofs_download_items`, after the (external) HTTP POST delivered a
document whose `div.nk-tb-item` elements carry the given sub-element texts:
collect the items and return `sorted(items)`. `today` is
`datetime.date.today()`. -/
def cleanprofs_download_items (today : PyDate) (elements : List (List String)) :
    PyResult (List Item) :=
  match cleanprofs_collect today elements with
  | .error => .error
  | .ok items => .ok (pySorted items)

/-- UTF-8 encoding of one character. -/
def utf8Char (c : Char) : List UInt8 :=
  let n := c.toNat
  if n < 0x80 then [UInt8.ofNat n]
  else if n < 0x800 then
    [UInt8.ofNat (0xC0 + n / 64), UInt8.ofNat (0x80 + n % 64)]
  else if n < 0x10000 then
    [UInt8.ofNat (0xE0 + n / 4096), UInt8.ofNat (0x80 + n / 64 % 64),
     UInt8.ofNat (0x80 + n % 64)]
  else
    [UInt8.ofNat (0xF0 + n / 262144), UInt8.ofNat (0x80 + n / 4096 % 64),
     UInt8.ofNat (0x80 + n / 64 % 64), UInt8.ofNat (0x80 + n % 64)]

/-- UTF-8 bytes of a string, as produced by Python's `str.encode("utf-8")`
and by redis-py when a `str` is written to redis. -/
def strBytes (s : String) : List UInt8 :=
  (s.data.map utf8Char).flatten

/-- Length-free byte encoding of a `Nat` (decimal digits, `0xFF` terminator);
part of the executable stand-in for `pickle`. -/
def encNat (n : Nat) : List UInt8 :=
  (Nat.toDigits 10 n).map (fun c => UInt8.ofNat c.toNat) ++ [0xFF]

/-- Decode one `encNat` field, returning the value and the remaining bytes. -/
def decNat (b : List UInt8) : Option (Nat × List UInt8) :=
  let ds := b.takeWhile (fun x => x != 0xFF)
  match b.dropWhile (fun x => x != 0xFF) with
  | [] => none
  | _ :: rest => some (ds.foldl (fun a x => a * 10 + (x.toNat - 48)) 0, rest)

/-- Byte tag of a `WasteType` in the pickle stand-in. -/
def wasteByte : WasteType → UInt8
  | .non_recyclable => 0
  | .organic => 1
  | .paper => 2
  | .plastic => 3
  | .tree => 4

/-- Inverse of `wasteByte`. -/
def byteWaste : UInt8 → Option WasteType
  | 0 => some .non_recyclable
  | 1 => some .organic
  | 2 => some .paper
  | 3 => some .plastic
  | 4 => some .tree
  | _ => none

/-- Encoding of one item in the pickle stand-in. -/
def encItem (it : Item) : List UInt8 :=
  encNat it.1.year ++ encNat it.1.month ++ encNat it.1.day ++ [wasteByte it.2]

/-- Fuel-indexed decoder for a sequence of encoded items. -/
def decItemsAux : Nat → List UInt8 → Option (List Item)
  | _, [] => some []
  | 0, _ :: _ => none
  | fuel + 1, b => do
    let (y, b1) ← decNat b
    let (m, b2) ← decNat b1
    let (d, b3) ← decNat b2
    match b3 with
    | [] => none
    | wb :: b4 => do
      let w ← byteWaste wb
      let rest ← decItemsAux fuel b4
      some ((⟨y, m, d⟩, w) :: rest)

/-- `pickle.dumps(items)`: modelled by an executable codec. The two leading
bytes are the real pickle protocol framing (`b"\x80\x05"`), which is the only
aspect of the wire format the verified properties observe: every dump begins
with byte `0x80`, so no dump equals the UTF-8 sentinel bytes. -/
def pickleDumps (items : List Item) : List UInt8 :=
  0x80 :: 0x05 :: (items.map encItem).flatten

/-- `pickle.loads(b)`: inverts `pickleDumps`; `none` models the
`UnpicklingError` raised on bytes that are not a pickle (in particular on
anything not starting with the `0x80` opcode). -/
def pickleLoads (b : List UInt8) : Option (List Item) :=
  match b with
  | 0x80 :: 0x05 :: rest => decItemsAux rest.length rest
  | _ => none

/-- The redis database: key to (value bytes, ttl seconds as set by
`expire`). `get` on a live (unexpired) key returns the bytes. -/
def Store := String → Option (List UInt8 × Nat)

/-- A redis database with no keys. -/
def emptyStore : Store := fun _ => none

/-- `cache.set(key, v)` followed by `cache.expire(key, ttl)`. -/
def cacheSet (s : Store) (key : String) (v : List UInt8) (ttl : Nat) : Store :=
  fun k => if k == key then some (v, ttl) else s k

/-- `cache_negative_result`: store the sentinel string (as UTF-8 bytes, which
is how redis receives a `str`) with the short negative expiration. -/
def cache_negative_result (key : String) (s : Store) : Store :=
  cacheSet s key (strBytes NOT_FOUND) REDIS_NEGATIVE_CACHE_EXPIRE

/-- `cache_positive_result`: store `pickle.dumps(items)` with the long
positive expiration. -/
def cache_positive_result (key : String) (items : List Item) (s : Store) : Store :=
  cacheSet s key (pickleDumps items) REDIS_POSITIVE_CACHE_EXPIRE

/-- A dynamically typed Python value, as far as the cache code needs one. -/
inductive PyVal where
  | str (s : String)
  | bytes (b : List UInt8)

/-- Python 3 `==` on such values: `bytes` and `str` never compare equal,
whatever their contents. -/
def pyEq : PyVal → PyVal → Bool
  | .str a, .str b => a == b
  | .bytes a, .bytes b => a == b
  | _, _ => false

/-- The four ways `fetch_cached_data_for` can come back. -/
inductive CacheRead where
  /-- `return NotFound` (the exception class object is returned, not raised). -/
  | notFoundMarker
  /-- `return None`: the key is not in the cache. -/
  | miss
  /-- `return pickle.loads(result)`. -/
  | items (l : List Item)
  /-- an uncaught exception escaped (`pickle.loads` on non-pickle bytes). -/
  | error
deriving DecidableEq

/-- `fetch_cached_data_for`. `cache.get` returns `bytes` (the client is
constructed without `decode_responses`), so the `result == NOT_FOUND`
comparison is a `bytes`-to-`str` comparison, embedded via `pyEq`. -/
def fetch_cached_data_for (s : Store) (key : String) : CacheRead :=
  match s key with
  | none => .miss
  | some (v, _) =>
    if pyEq (.bytes v) (.str NOT_FOUND) then .notFoundMarker
    else
      match pickleLoads v with
      | some l => .items l
      | none => .error

/-- Result of the provider-adapter call made on a cache miss, from the
orchestrator's point of view: a value, a `NotFound` exception, or any other
exception. -/
inductive AdapterOutcome where
  | success (l : List Item)
  | absent
  | failure
deriving DecidableEq

/-- What `fetch_data_for` does, seen from its caller. -/
inductive FetchResult where
  | ok (l : List Item)
  /-- `raise f.HTTPException(status_code=404)`. -/
  | http404
  /-- `raise f.HTTPException(status_code=500)`. -/
  | http500
  /-- an exception raised outside the `try` block escaped `fetch_data_for`. -/
  | raised
deriving DecidableEq

/-- Return value, final cache state, and whether a provider network call was
made. -/
structure FetchOut where
  result : FetchResult
  store : Store
  networkCalled : Bool

/-- `key = f"{provider.value}-{postal_code}-{number}-{addition}"`. -/
def cacheKey (p : Provider) (postal number addition : String) : String :=
  p.value ++ "-" ++ postal ++ "-" ++ number ++ "-" ++ addition

/-- `fetch_data_for`: the orchestrator. `adapter` is the outcome of whichever
provider adapter would be invoked on a cache miss (the network exchange
itself is external). Note `fetch_cached_data_for` is called before the
`try`, so an exception it raises escapes uncaught (`.raised`). -/
def fetch_data_for (s : Store) (p : Provider) (postal number addition : String)
    (adapter : AdapterOutcome) : FetchOut :=
  let key := cacheKey p postal number addition
  match fetch_cached_data_for s key with
  | .notFoundMarker => ⟨.http404, s, false⟩
  | .items l => ⟨.ok l, s, false⟩
  | .error => ⟨.raised, s, false⟩
  | .miss =>
    match adapter with
    | .absent => ⟨.http404, cache_negative_result key s, true⟩
    | .failure => ⟨.http500, s, true⟩
    | .success l => ⟨.ok l, cache_positive_result key l s, true⟩

/-- Python `datetime.time` (microseconds unused by this program). -/
structure PyTime where
  hour : Nat
  minute : Nat
  second : Nat
deriving DecidableEq

/-- Days from civil date (proleptic Gregorian, epoch 1970-01-01); the
standard days-from-civil computation. All intermediate divisions act on
non-negative values, so `Int` truncated division is exact here. -/
def daysFromCivil (d : PyDate) : Int :=
  let y : Int := (d.year : Int) - (if d.month ≤ 2 then 1 else 0)
  let era : Int := (if 0 ≤ y then y else y - 399) / 400
  let yoe : Int := y - era * 400
  let mp : Int := ((d.month : Int) + 9) % 12
  let doy : Int := (153 * mp + 2) / 5 + (d.day : Int) - 1
  let doe : Int := yoe * 365 + yoe / 4 - yoe / 100 + doy
  era * 146097 + doe - 719468

/-- `datetime.datetime.combine(date, time).replace(tzinfo=AMSTERDAM)`,
represented as wall-clock seconds in the fixed `Europe/Amsterdam` zone
(`.replace(tzinfo=...)` attaches the zone without shifting the wall clock,
so a single scalar per datetime is a faithful representation). -/
def datetimeCombine (d : PyDate) (t : PyTime) : Int :=
  daysFromCivil d * 86400 + t.hour * 3600 + t.minute * 60 + t.second

/-- Decimal rendering of a `Nat`, zero-padded to a width. -/
def padNum (w n : Nat) : String :=
  let s := toString n
  String.mk (List.replicate (w - s.length) '0') ++ s

/-- `str(timestamp)` for a `datetime.date`: ISO `YYYY-MM-DD`. -/
def dateIso (d : PyDate) : String :=
  padNum 4 d.year ++ "-" ++ padNum 2 d.month ++ "-" ++ padNum 2 d.day

/-- The `uid` computed in `create_calander`: SHA-256 over the concatenated
UTF-8 bytes of the prefix, `str(timestamp)` and `waste_type.value` (three
`update` calls hash the concatenation). The hash function itself is external
(`hashlib`), so it is a parameter everywhere. -/
def event_uid (hash : List UInt8 → String) (pfx : String) (d : PyDate)
    (w : WasteType) : String :=
  hash (strBytes pfx ++ strBytes (dateIso d) ++ strBytes w.value)

/-- One `ics.Event` as constructed by `create_calander`: begin/end instants
and absolute alarm-trigger instants, as wall-clock seconds (`DisplayAlarm`'s
trigger is the absolute datetime `item_begin + offset`). Alarm offsets are
`timedelta`s, embedded as total seconds (`Int`). -/
structure IcsEvent where
  uid : String
  name : String
  evBegin : Int
  evEnd : Int
  alarms : List Int
deriving DecidableEq

/-- The per-item loop of `create_calander`, in item order. `none` models the
uncaught `KeyError` from `WASTE_TYPE_LABELS[waste_type.value]` (the dict has
no entry for `plastic`). The source inserts events into a set
(`calendar.events.add`); this list keeps insertion order (identical
duplicate events would collapse in the set, which no verified property
depends on). -/
def calanderEvents (hash : List UInt8 → String) (pfx : String)
    (tBegin tEnd : PyTime) (alarms : List Int) : List Item → Option (List IcsEvent)
  | [] => some []
  | (d, w) :: rest =>
    match WASTE_TYPE_LABELS w with
    | none => none
    | some label =>
      let b := datetimeCombine d tBegin
      let ev : IcsEvent :=
        { uid := event_uid hash pfx d w
          name := pfx ++ ": " ++ label
          evBegin := b
          evEnd := datetimeCombine d tEnd
          alarms := alarms.map (fun off => b + off) }
      match calanderEvents hash pfx tBegin tEnd alarms rest with
      | none => none
      | some evs => some (ev :: evs)

/-- `create_calander`. (`alarms = alarms or []` only maps Python `None` to
the empty list; the embedded argument is already a list, and an empty list
maps to itself.) -/
def create_calander (hash : List UInt8 → String) (items : List Item)
    (pfx : String) (tBegin tEnd : PyTime) (alarms : List Int) :
    Option (List IcsEvent) :=
  calanderEvents hash pfx tBegin tEnd alarms items

/-- `datetime.timedelta(n)`: the first positional argument is a count of
DAYS; total seconds. -/
def timedelta_days (d : Int) : Int :=
  d * 86400

/-- The `alarms` default of the `/{provider}.ics` route:
`[datetime.timedelta(-12), datetime.timedelta(0)]`. -/
def cleanprofs_ics_default_alarms : List Int :=
  [timedelta_days (-12), timedelta_days 0]

/-- The `begin` default of the `/{provider}.ics` route: `datetime.time(7)`. -/
def cleanprofs_ics_default_begin : PyTime := ⟨7, 0, 0⟩

/-- The `end` default of the `/{provider}.ics` route: `datetime.time(19)`. -/
def cleanprofs_ics_default_end : PyTime := ⟨19, 0, 0⟩

/-- The calendar-rendering step of the `/{provider}.ics` route: choose the
prefix by provider and call `create_calander` with at most the first two
alarm offsets (`alarms[:2]`). -/
def cleanprofs_ics_render (hash : List UInt8 → String) (items : List Item)
    (p : Provider) (tBegin tEnd : PyTime) (alarms : List Int) :
    Option (List IcsEvent) :=
  let pfx := if p = Provider.cleanprofs then "Cleanprofs" else "Afval"
  create_calander hash items pfx tBegin tEnd (alarms.take 2)

/-! ## Order lemmas for the sort used by both adapters -/

theorem keyLe_cons_iff (x y : Nat) (xs ys : List Nat) :
    keyLe (x :: xs) (y :: ys) = true ↔ x < y ∨ (x = y ∧ keyLe xs ys = true) := by
  by_cases h1 : x < y
  · simp [keyLe, h1]
  · by_cases h2 : y < x
    · simp [keyLe, h1, h2]
      rintro (h | ⟨rfl, -⟩)
      all_goals omega
    · have hxy : x = y := by omega
      subst hxy
      simp [keyLe, h1, h2]

theorem keyLe_trans : ∀ a b c : List Nat,
    keyLe a b = true → keyLe b c = true → keyLe a c = true := by
  intro a
  induction a with
  | nil => intro b c _ _; rfl
  | cons x xs ih =>
    intro b c hab hbc
    cases b with
    | nil => simp [keyLe] at hab
    | cons y ys =>
      cases c with
      | nil => simp [keyLe] at hbc
      | cons z zs =>
        rw [keyLe_cons_iff] at hab hbc ⊢
        rcases hab with h | ⟨rfl, hxs⟩
        · rcases hbc with h' | ⟨rfl, -⟩
          · exact Or.inl (Nat.lt_trans h h')
          · exact Or.inl h
        · rcases hbc with h' | ⟨rfl, hys⟩
          · exact Or.inl h'
          · exact Or.inr ⟨rfl, ih ys zs hxs hys⟩

theorem keyLe_total : ∀ a b : List Nat, (keyLe a b || keyLe b a) = true := by
  intro a
  induction a with
  | nil => intro b; simp [keyLe]
  | cons x xs ih =>
    intro b
    cases b with
    | nil => simp [keyLe]
    | cons y ys =>
      rcases Bool.or_eq_true_iff.mp (ih ys) with h | h
      · rcases Nat.lt_trichotomy x y with hlt | heq | hgt
        · simp [keyLe_cons_iff, hlt]
        · simp [keyLe_cons_iff, heq, h]
        · simp [keyLe_cons_iff]
          exact Or.inr (Or.inl hgt)
      · rcases Nat.lt_trichotomy x y with hlt | heq | hgt
        · simp [keyLe_cons_iff, hlt]
        · simp [keyLe_cons_iff, heq, h]
        · simp [keyLe_cons_iff]
          exact Or.inr (Or.inl hgt)

theorem itemLe_trans (a b c : Item) :
    itemLe a b = true → itemLe b c = true → itemLe a c = true :=
  keyLe_trans (itemKey a) (itemKey b) (itemKey c)

theorem itemLe_total (a b : Item) : (itemLe a b || itemLe b a) = true :=
  keyLe_total (itemKey a) (itemKey b)

instance : IsTotal Item (fun a b => itemLe a b = true) :=
  ⟨fun a b => by
    rcases Bool.or_eq_true_iff.mp (itemLe_total a b) with h | h
    · exact Or.inl h
    · exact Or.inr h⟩

instance : IsTrans Item (fun a b => itemLe a b = true) :=
  ⟨fun a b c => itemLe_trans a b c⟩

/-- `sorted` output is pairwise ordered under the Python tuple order. -/
theorem pySorted_sorted (l : List Item) :
    (pySorted l).Pairwise (fun a b => itemLe a b = true) :=
  List.sorted_insertionSort (fun a b => itemLe a b = true) l

/-! ## Claims -/

/-- C9: for every successfully parsed document, each provider adapter's
output list is sorted ascending by pickup date, with ties on the same date
broken by `waste_type` (Python tuple order on `(date, waste_type)`,
embedded by `itemLe`). -/
theorem adapters_output_sorted :
    (∀ (year : Nat) (body : String) (l : List Item),
      afvalstoffen_get_dates year body = .ok l →
        l.Pairwise (fun a b => itemLe a b = true)) ∧
    (∀ (today : PyDate) (elements : List (List String)) (l : List Item),
      cleanprofs_download_items today elements = .ok l →
        l.Pairwise (fun a b => itemLe a b = true)) := by
  constructor
  · intro year body l h
    unfold afvalstoffen_get_dates at h
    cases hscan : afvalstoffen_scan year (pySplitNl body) with
    | error => rw [hscan] at h; exact absurd h (by simp)
    | ok items =>
      rw [hscan] at h
      obtain rfl : pySorted items = l := by
        injection h
      exact pySorted_sorted items
  · intro today elements l h
    unfold cleanprofs_download_items at h
    cases hc : cleanprofs_collect today elements with
    | error => rw [hc] at h; exact absurd h (by simp)
    | ok items =>
      rw [hc] at h
      obtain rfl : pySorted items = l := by
        injection h
      exact pySorted_sorted items

/-- Witness for C9: a concrete two-line Afvalstoffen document whose parse
succeeds, and the resulting list is pairwise ordered. -/
theorem adapters_output_sorted_witness :
    afvalstoffen_get_dates 2026
        "<p class=\"restafval\">Wo 14 januari</p>\n<p class=\"gft\">Ma 2 januari</p>"
      = .ok [(⟨2026, 1, 2⟩, .organic), (⟨2026, 1, 14⟩, .non_recyclable)] ∧
    List.Pairwise (fun a b => itemLe a b = true)
      [((⟨2026, 1, 2⟩ : PyDate), WasteType.organic), (⟨2026, 1, 14⟩, .non_recyclable)] :=
  ⟨by decide, by
    exact adapters_output_sorted.1 2026
      "<p class=\"restafval\">Wo 14 januari</p>\n<p class=\"gft\">Ma 2 januari</p>"
      _ (by decide)⟩

/-- C2: the orchestrator consults the cache first and returns immediately on
a positive hit (no network call, cache unchanged); on a miss it invokes the
provider adapter, and then: `Absent` records a negative entry and fails 404;
success (including an empty list) records a positive entry and returns the
events; any other adapter exception yields 500 with nothing written. -/
theorem fetch_data_for_branches (s : Store) (p : Provider)
    (pc n ad : String) (adapter : AdapterOutcome) :
    (∀ l, fetch_cached_data_for s (cacheKey p pc n ad) = .items l →
      fetch_data_for s p pc n ad adapter = ⟨.ok l, s, false⟩) ∧
    (fetch_cached_data_for s (cacheKey p pc n ad) = .miss →
      (fetch_data_for s p pc n ad adapter).networkCalled = true ∧
      (adapter = .absent →
        fetch_data_for s p pc n ad adapter =
          ⟨.http404, cache_negative_result (cacheKey p pc n ad) s, true⟩) ∧
      (∀ l, adapter = .success l →
        fetch_data_for s p pc n ad adapter =
          ⟨.ok l, cache_positive_result (cacheKey p pc n ad) l s, true⟩) ∧
      (adapter = .failure →
        fetch_data_for s p pc n ad adapter = ⟨.http500, s, true⟩)) := by
  constructor
  · intro l hl
    simp only [fetch_data_for]
    rw [hl]
  · intro hm
    simp only [fetch_data_for]
    rw [hm]
    cases adapter with
    | success l =>
      refine ⟨rfl, ?_, ?_, ?_⟩
      · intro h; exact absurd h (by simp)
      · intro l' h; cases h; rfl
      · intro h; exact absurd h (by simp)
    | absent =>
      refine ⟨rfl, fun _ => rfl, ?_, ?_⟩
      · intro l' h; exact absurd h (by simp)
      · intro h; exact absurd h (by simp)
    | failure =>
      refine ⟨rfl, ?_, ?_, fun _ => rfl⟩
      · intro h; exact absurd h (by simp)
      · intro l' h; exact absurd h (by simp)

/-- Witness for C2: on the empty store (a miss) with an `Absent` adapter
outcome, the orchestrator makes the network call, records the negative entry
and fails 404. -/
theorem fetch_data_for_branches_witness :
    fetch_cached_data_for emptyStore (cacheKey .cleanprofs "1234AB" "1" "") = .miss ∧
    fetch_data_for emptyStore .cleanprofs "1234AB" "1" "" .absent =
      ⟨.http404, cache_negative_result (cacheKey .cleanprofs "1234AB" "1" "") emptyStore,
        true⟩ :=
  ⟨rfl,
    ((fetch_data_for_branches emptyStore .cleanprofs "1234AB" "1" "" .absent).2
      rfl).2.1 rfl⟩

/-- C1 (code bug): after `cache_negative_result`, reading the key back does
NOT produce the `NotFound` marker: `cache.get` returns `bytes`, the
`result == NOT_FOUND` comparison is `bytes`-vs-`str` and always false, so
the code falls into `pickle.loads(b"__not_found__")`, which raises
(`.error` / `.raised`), and the second resolve does not fail with the
404-equivalent. The sentinel bytes are nonetheless distinguishable from any
pickled payload (pickle output starts with `0x80`, the sentinel with `_`). -/
theorem negative_cache_readback_broken :
    fetch_cached_data_for
        (cache_negative_result (cacheKey .cleanprofs "1234AB" "1" "") emptyStore)
        (cacheKey .cleanprofs "1234AB" "1" "") = .error ∧
    (fetch_data_for
        (cache_negative_result (cacheKey .cleanprofs "1234AB" "1" "") emptyStore)
        .cleanprofs "1234AB" "1" "" (.success [])).result = .raised ∧
    (fetch_data_for
        (cache_negative_result (cacheKey .cleanprofs "1234AB" "1" "") emptyStore)
        .cleanprofs "1234AB" "1" "" (.success [])).networkCalled = false ∧
    decide ((fetch_data_for
        (cache_negative_result (cacheKey .cleanprofs "1234AB" "1" "") emptyStore)
        .cleanprofs "1234AB" "1" "" (.success [])).result = .http404) = false ∧
    decide (pickleDumps [(⟨2026, 1, 14⟩, .non_recyclable)] = strBytes NOT_FOUND)
      = false ∧
    decide (pickleDumps [] = strBytes NOT_FOUND) = false := by
  refine ⟨by decide, by decide, by decide, by decide, by decide, by decide⟩

/-- C10: the cache key is not injective — `("12", "3-4", "")` and
`("12-3", "4", "")` collide — and a result cached under the first address is
then served from the cache for the second (no network call). -/
theorem cache_key_collision :
    cacheKey .cleanprofs "12" "3-4" "" = cacheKey .cleanprofs "12-3" "4" "" ∧
    decide ((("12" : String), ("3-4" : String), ("" : String))
      = (("12-3" : String), ("4" : String), ("" : String))) = false ∧
    (fetch_data_for
        (cache_positive_result (cacheKey .cleanprofs "12" "3-4" "")
          [(⟨2026, 3, 3⟩, .organic)] emptyStore)
        .cleanprofs "12-3" "4" "" .failure).result = .ok [(⟨2026, 3, 3⟩, .organic)] ∧
    (fetch_data_for
        (cache_positive_result (cacheKey .cleanprofs "12" "3-4" "")
          [(⟨2026, 3, 3⟩, .organic)] emptyStore)
        .cleanprofs "12-3" "4" "" .failure).networkCalled = false := by
  refine ⟨rfl, by decide, by decide, by decide⟩

/-- C3 (counterexample): on the spec's document line `<p class="rst">Wo 14 jan</p>`
the Afvalstoffen adapter does NOT yield an event: the regex matches
(marker `rst`, month text `jan`), but `jan` is not in `MONTHS` (which holds
full Dutch names), so `MONTHS.index` raises `ValueError` (and `rst` is a
Cleanprofs marker, absent from `AFVALSTOFFEN_WASTE_TYPES`). -/
theorem afvalstoffen_rst_jan_line_errors :
    afvalstoffen_get_dates 2026 "<p class=\"rst\">Wo 14 jan</p>" = .error ∧
    decide (afvalstoffen_get_dates 2026 "<p class=\"rst\">Wo 14 jan</p>"
      = .ok [(⟨2026, 1, 14⟩, .non_recyclable)]) = false := by
  exact ⟨by decide, by decide⟩

/-- C3 (amended): with the marker and month name the adapter's tables
actually contain — the line `<p class="restafval">Wo 14 januari</p>` — the
adapter yields exactly one event with `waste_type = non_recyclable` and
date January 14 of the current year. -/
theorem afvalstoffen_restafval_januari_scenario (year : Nat)
    (hy : 1 ≤ year ∧ year ≤ 9999) :
    afvalstoffen_get_dates year "<p class=\"restafval\">Wo 14 januari</p>"
      = .ok [(⟨year, 1, 14⟩, .non_recyclable)] := by
  have hmk : mkDate year 1 14 = some ⟨year, 1, 14⟩ := by
    have hv : isValidDate year 1 14 = true := by
      simp only [isValidDate, daysInMonth, isLeap, Bool.and_eq_true, decide_eq_true_eq]
      norm_num
      omega
    simp [mkDate, hv]
  have hscan : afvalstoffen_scan year (pySplitNl "<p class=\"restafval\">Wo 14 januari</p>")
      = .ok [(⟨year, 1, 14⟩, .non_recyclable)] := by
    rw [show pySplitNl "<p class=\"restafval\">Wo 14 januari</p>"
      = ["<p class=\"restafval\">Wo 14 januari</p>"] from by decide]
    simp only [afvalstoffen_scan,
      show afvalstoffenLineMatch "<p class=\"restafval\">Wo 14 januari</p>"
        = some ("restafval", "14", "januari") from by decide,
      show MONTHS.findIdx? (fun s => s == pyLower "januari") = some 0 from by decide,
      show digitsToNat "14" = 14 from by decide, Nat.zero_add]
    rw [hmk]
    rfl
  unfold afvalstoffen_get_dates
  rw [hscan]
  rfl

/-- Witness for the amended C3 at year 2026. -/
theorem afvalstoffen_restafval_januari_scenario_witness :
    (1 ≤ 2026 ∧ 2026 ≤ 9999) ∧
    afvalstoffen_get_dates 2026 "<p class=\"restafval\">Wo 14 januari</p>"
      = .ok [(⟨2026, 1, 14⟩, .non_recyclable)] :=
  ⟨by decide, afvalstoffen_restafval_januari_scenario 2026 (by decide)⟩

/-- C4 (counterexample): a matched line whose month name is not in the month
table is NOT silently skipped: `MONTHS.index("xyz")` raises `ValueError`,
so the whole parse errors instead of returning an empty success. -/
theorem afvalstoffen_unknown_month_errors :
    afvalstoffen_get_dates 2026 "<p class=\"restafval\">Wo 14 xyz</p>" = .error ∧
    decide (afvalstoffen_get_dates 2026 "<p class=\"restafval\">Wo 14 xyz</p>"
      = .ok []) = false := by
  exact ⟨by decide, by decide⟩

/-- Lines the pattern does not match at all contribute nothing and raise
nothing. -/
theorem afvalstoffen_scan_of_unmatched (year : Nat) :
    ∀ ls : List String, (∀ l ∈ ls, afvalstoffenLineMatch l = none) →
      afvalstoffen_scan year ls = .ok [] := by
  intro ls
  induction ls with
  | nil => intro _; rfl
  | cons a as ih =>
    intro h
    have ha := h a (List.mem_cons_self a as)
    simp only [afvalstoffen_scan, ha]
    exact ih (fun l hl => h l (List.mem_cons_of_mem a hl))

/-- C4 (amended): lines that do not match the textual pattern are silently
skipped, and a document with no matching line is an empty success (`.ok []`),
not an error and not `Absent`; but a MATCHED line whose month name is not in
the month table, or whose category marker is not in the fixed label table,
raises an uncaught exception (surfaced as a 500) instead of being skipped. -/
theorem afvalstoffen_skip_and_raise :
    (∀ (year : Nat) (body : String),
      (∀ l ∈ pySplitNl body, afvalstoffenLineMatch l = none) →
        afvalstoffen_get_dates year body = .ok []) ∧
    afvalstoffen_get_dates 2026 "<p class=\"restafval\">Wo 14 xyz</p>" = .error ∧
    afvalstoffen_get_dates 2026 "<p class=\"rst\">Wo 14 januari</p>" = .error := by
  refine ⟨?_, by decide, by decide⟩
  intro year body h
  unfold afvalstoffen_get_dates
  rw [afvalstoffen_scan_of_unmatched year (pySplitNl body) h]
  rfl

/-- Witness for the amended C4: a two-line document with no matching line
parses to the empty success. -/
theorem afvalstoffen_skip_and_raise_witness :
    (∀ l ∈ pySplitNl "hello\nworld", afvalstoffenLineMatch l = none) ∧
    afvalstoffen_get_dates 2026 "hello\nworld" = .ok [] :=
  ⟨by decide, afvalstoffen_skip_and_raise.1 2026 "hello\nworld" (by decide)⟩

/-- C5 (counterexample): `create_calander` is not total on all five waste
categories: an event list containing a `plastic` event makes it raise
(`WASTE_TYPE_LABELS` has no `plastic` entry, so the name lookup is a
`KeyError`), modelled by `none`. -/
theorem create_calander_plastic_raises :
    create_calander (fun _ => "h") [(⟨2026, 1, 14⟩, .plastic)] "Afval"
      cleanprofs_ics_default_begin cleanprofs_ics_default_end [] = none ∧
    decide ((create_calander (fun _ => "h") [(⟨2026, 1, 14⟩, .plastic)] "Afval"
      cleanprofs_ics_default_begin cleanprofs_ics_default_end []).isSome = true)
      = false := by
  exact ⟨rfl, by decide⟩

/-- C5 (amended): `create_calander` is a pure total function on event lists
drawn from the four labelled categories (all of `WasteType` except
`plastic`): for every such list, every prefix, every time-of-day pair and
every alarm-offset list it returns a calendar document (never raises). -/
theorem create_calander_total_without_plastic
    (hash : List UInt8 → String) (items : List Item) (pfx : String)
    (tBegin tEnd : PyTime) (alarms : List Int)
    (h : ∀ it ∈ items, it.2 ≠ WasteType.plastic) :
    (create_calander hash items pfx tBegin tEnd alarms).isSome = true := by
  induction items with
  | nil => rfl
  | cons it rest ih =>
    obtain ⟨d, w⟩ := it
    have hw : w ≠ WasteType.plastic := h (d, w) (List.mem_cons_self _ _)
    have hlab : (WASTE_TYPE_LABELS w).isSome = true := by
      cases w <;> first | rfl | exact absurd rfl hw
    obtain ⟨label, hl⟩ := Option.isSome_iff_exists.mp hlab
    have ih' := ih (fun x hx => h x (List.mem_cons_of_mem _ hx))
    obtain ⟨evs, hevs⟩ := Option.isSome_iff_exists.mp ih'
    have hevs' : calanderEvents hash pfx tBegin tEnd alarms rest = some evs := hevs
    simp only [create_calander, calanderEvents, hl, hevs']
    rfl

/-- Witness for the amended C5 on a four-category event list. -/
theorem create_calander_total_without_plastic_witness :
    (∀ it ∈ [((⟨2026, 1, 14⟩ : PyDate), WasteType.non_recyclable),
             (⟨2026, 1, 15⟩, .organic), (⟨2026, 1, 16⟩, .paper),
             (⟨2026, 1, 17⟩, .tree)], it.2 ≠ WasteType.plastic) ∧
    (create_calander (fun _ => "h")
      [(⟨2026, 1, 14⟩, .non_recyclable), (⟨2026, 1, 15⟩, .organic),
       (⟨2026, 1, 16⟩, .paper), (⟨2026, 1, 17⟩, .tree)]
      "Afval" ⟨7, 0, 0⟩ ⟨19, 0, 0⟩ []).isSome = true :=
  ⟨by decide,
    create_calander_total_without_plastic (fun _ => "h")
      [(⟨2026, 1, 14⟩, .non_recyclable), (⟨2026, 1, 15⟩, .organic),
       (⟨2026, 1, 16⟩, .paper), (⟨2026, 1, 17⟩, .tree)]
      "Afval" ⟨7, 0, 0⟩ ⟨19, 0, 0⟩ [] (by decide)⟩

/-- The uid of every produced entry is the hash of exactly
(prefix, ISO date string, waste-type value). -/
theorem calanderEvents_map_uid (hash : List UInt8 → String) (pfx : String)
    (tBegin tEnd : PyTime) (alarms : List Int) :
    ∀ (items : List Item) (evs : List IcsEvent),
      calanderEvents hash pfx tBegin tEnd alarms items = some evs →
      evs.map IcsEvent.uid = items.map (fun it =>
        hash (strBytes pfx ++ strBytes (dateIso it.1) ++ strBytes it.2.value)) := by
  intro items
  induction items with
  | nil =>
    intro evs h
    injection h with h
    rw [← h]
    rfl
  | cons it rest ih =>
    obtain ⟨d, w⟩ := it
    intro evs h
    cases hl : WASTE_TYPE_LABELS w with
    | none => simp [calanderEvents, hl] at h
    | some label =>
      cases hr : calanderEvents hash pfx tBegin tEnd alarms rest with
      | none => simp [calanderEvents, hl, hr] at h
      | some evs' =>
        simp only [calanderEvents, hl, hr] at h
        injection h with h
        rw [← h, List.map_cons, List.map_cons, ih evs' hr]
        rfl

/-- C6: `create_calander` is deterministic — the same inputs give the same
(hence byte-identical once serialized) calendar value — and each entry's
identifier is the cryptographic hash over exactly (label prefix, the date's
canonical string form, the waste type's canonical string form); in
particular the identifiers do not depend on the time-of-day window or the
alarm offsets of the run. -/
theorem create_calander_deterministic (hash : List UInt8 → String)
    (items : List Item) (pfx : String) (tBegin tEnd : PyTime) (alarms : List Int) :
    create_calander hash items pfx tBegin tEnd alarms
      = create_calander hash items pfx tBegin tEnd alarms ∧
    (∀ evs, create_calander hash items pfx tBegin tEnd alarms = some evs →
      evs.map IcsEvent.uid = items.map (fun it =>
        hash (strBytes pfx ++ strBytes (dateIso it.1) ++ strBytes it.2.value))) ∧
    (∀ tB2 tE2 al2 evs evs2,
      create_calander hash items pfx tBegin tEnd alarms = some evs →
      create_calander hash items pfx tB2 tE2 al2 = some evs2 →
      evs.map IcsEvent.uid = evs2.map IcsEvent.uid) := by
  refine ⟨rfl, fun evs h => calanderEvents_map_uid hash pfx tBegin tEnd alarms items evs h, ?_⟩
  intro tB2 tE2 al2 evs evs2 h1 h2
  rw [calanderEvents_map_uid hash pfx tBegin tEnd alarms items evs h1,
    calanderEvents_map_uid hash pfx tB2 tE2 al2 items evs2 h2]

/-- Witness for C6 on a concrete build. -/
theorem create_calander_deterministic_witness :
    create_calander (fun _ => "h") [(⟨2026, 1, 14⟩, .organic)] "Afval"
        ⟨7, 0, 0⟩ ⟨19, 0, 0⟩ []
      = some [{ uid := "h", name := "Afval: Organic", evBegin := 1768374000,
                evEnd := 1768417200, alarms := [] }] ∧
    [({ uid := "h", name := "Afval: Organic", evBegin := 1768374000,
        evEnd := 1768417200, alarms := [] } : IcsEvent)].map IcsEvent.uid
      = [((⟨2026, 1, 14⟩ : PyDate), WasteType.organic)].map (fun it =>
          (fun _ => "h") (strBytes "Afval" ++ strBytes (dateIso it.1)
            ++ strBytes it.2.value)) :=
  ⟨by decide,
    (create_calander_deterministic (fun _ => "h") [(⟨2026, 1, 14⟩, .organic)]
      "Afval" ⟨7, 0, 0⟩ ⟨19, 0, 0⟩ []).2.1 _ (by decide)⟩

/-- C7 (code bug): the route's default alarm offsets are
`[timedelta(-12), timedelta(0)]`, and `timedelta`'s first positional
argument is DAYS — so the default first reminder fires 12 DAYS before the
event start (offset −1036800 s), not 12 hours (−43200 s) as specified; the
second fires at the start. With the intended `[-12h, 0]` offsets the builder
does produce triggers at start−12h and start; and `alarms[:2]` caps the
reminders at two per event. -/
theorem ics_default_alarms_are_days_not_hours :
    cleanprofs_ics_default_alarms = [timedelta_days (-12), timedelta_days 0] ∧
    timedelta_days (-12) = -1036800 ∧
    decide (timedelta_days (-12) = -43200) = false ∧
    (cleanprofs_ics_render (fun _ => "h") [(⟨2026, 1, 14⟩, .organic)] .cleanprofs
        cleanprofs_ics_default_begin cleanprofs_ics_default_end
        cleanprofs_ics_default_alarms).map (fun evs => evs.map IcsEvent.alarms)
      = some [[1768374000 - 1036800, 1768374000]] ∧
    (cleanprofs_ics_render (fun _ => "h") [(⟨2026, 1, 14⟩, .organic)] .cleanprofs
        cleanprofs_ics_default_begin cleanprofs_ics_default_end
        [-43200, 0]).map (fun evs => evs.map IcsEvent.alarms)
      = some [[1768374000 - 43200, 1768374000]] ∧
    (cleanprofs_ics_render (fun _ => "h") [(⟨2026, 1, 14⟩, .organic)] .cleanprofs
        cleanprofs_ics_default_begin cleanprofs_ics_default_end
        [0, 0, 0]).map (fun evs => evs.map (fun ev => ev.alarms.length))
      = some [(2 : Nat)] := by
  exact ⟨rfl, by decide, by decide, by decide, by decide, by decide⟩

/-- C8: a Cleanprofs item whose sub-element texts are `["gft", "03 mar"]`
yields exactly one event `(organic, March 3, current year)`; the waste type
is the FIRST text found in the category table and the date the FIRST text
matching the day-month pattern (second conjunct: with candidates
`rst`/`gft` and `05 jan`/`03 mar` present, `rst` and `05 jan` win). -/
theorem cleanprofs_gft_mar_scenario (y m d : Nat) (hy : 1 ≤ y ∧ y ≤ 9999) :
    cleanprofs_extract_item ⟨y, m, d⟩ ["gft", "03 mar"]
      = .ok (some (⟨y, 3, 3⟩, .organic)) ∧
    cleanprofs_extract_item ⟨y, m, d⟩ ["rst", "gft", "05 jan", "03 mar"]
      = .ok (some (⟨y, 1, 5⟩, .non_recyclable)) := by
  have hmk3 : mkDate y 3 3 = some ⟨y, 3, 3⟩ := by
    have hv : isValidDate y 3 3 = true := by
      simp only [isValidDate, daysInMonth, isLeap, Bool.and_eq_true, decide_eq_true_eq]
      norm_num
      omega
    simp [mkDate, hv]
  have hmk1 : mkDate y 1 5 = some ⟨y, 1, 5⟩ := by
    have hv : isValidDate y 1 5 = true := by
      simp only [isValidDate, daysInMonth, isLeap, Bool.and_eq_true, decide_eq_true_eq]
      norm_num
      omega
    simp [mkDate, hv]
  constructor
  · simp only [cleanprofs_extract_item,
      show (["gft", "03 mar"].map (fun t => pyLower (pyStrip t))) = ["gft", "03 mar"]
        from by decide,
      show (["gft", "03 mar"].findSome? CLEANPROFS_WASTE_TYPES)
        = some WasteType.organic from by decide,
      cleanprofs_find_date,
      show cleanprofsDateMatch (pyLower (pyStrip "gft")) = none from by decide,
      show cleanprofsDateMatch (pyLower (pyStrip "03 mar")) = some ("03", "mar")
        from by decide,
      show MONTHS_ABBREVIATED.findIdx? (fun s => s == "mar") = some 2 from by decide,
      show digitsToNat "03" = 3 from by decide,
      pyReplace, show (2 + 1 : Nat) = 3 from rfl]
    rw [hmk3]
  · simp only [cleanprofs_extract_item,
      show (["rst", "gft", "05 jan", "03 mar"].map (fun t => pyLower (pyStrip t)))
        = ["rst", "gft", "05 jan", "03 mar"] from by decide,
      show (["rst", "gft", "05 jan", "03 mar"].findSome? CLEANPROFS_WASTE_TYPES)
        = some WasteType.non_recyclable from by decide,
      cleanprofs_find_date,
      show cleanprofsDateMatch (pyLower (pyStrip "rst")) = none from by decide,
      show cleanprofsDateMatch (pyLower (pyStrip "gft")) = none from by decide,
      show cleanprofsDateMatch (pyLower (pyStrip "05 jan")) = some ("05", "jan")
        from by decide,
      show MONTHS_ABBREVIATED.findIdx? (fun s => s == "jan") = some 0 from by decide,
      show digitsToNat "05" = 5 from by decide,
      pyReplace, Nat.zero_add]
    rw [hmk1]

/-- Witness for C8 with today = 2026-07-09. -/
theorem cleanprofs_gft_mar_scenario_witness :
    (1 ≤ 2026 ∧ 2026 ≤ 9999) ∧
    cleanprofs_extract_item ⟨2026, 7, 9⟩ ["gft", "03 mar"]
      = .ok (some (⟨2026, 3, 3⟩, .organic)) :=
  ⟨by decide, (cleanprofs_gft_mar_scenario 2026 7 9 (by decide)).1⟩

end Afval
